import Mathlib

set_option linter.unusedVariables false

/-!
Shallow embedding of the pypico container format and loader
(src/pypico/pypico.py and src/pypico/convert_picofile.py), with Python 3
semantics.  File contents are modelled at the level of the decoded pickle
(a datafile holds the four-field dictionary written by create_pico), the
process-wide module registry (sys.modules) is explicit state, and the
outcome of executing embedded code is an oracle parameter.
-/

/-- Running library version, the module attribute pypico.__version__. -/
def pypicoVersion : String := "3.3.0"

/-- Model of Python int() on the numeral pieces of a dotted version string
(every call site parses pieces of __version__, which are plain numerals). -/
def pyInt (s : String) : Nat :=
  s.data.foldl (fun n c => n * 10 + (c.toNat - 48)) 0

/-- Split a character list on a separator, Python str.split with one
separator character. -/
def splitOnCharAux (c : Char) : List Char → List Char → List (List Char)
  | [], acc => [acc.reverse]
  | x :: xs, acc =>
    if x = c then acc.reverse :: splitOnCharAux c xs []
    else splitOnCharAux c xs (x :: acc)

def splitOnChar (s : String) (c : Char) : List String :=
  (splitOnCharAux c s.data []).map String.mk

/-- Direct translation of pypico._version_ok.  The source computes both
`mine` and `theirs` from `__version__` itself; the `version` argument is
never read. -/
def _version_ok (version : String) : Bool :=
  let mine := (splitOnChar pypicoVersion '.').map pyInt
  let theirs := (splitOnChar pypicoVersion '.').map pyInt
  mine.getD 0 0 == theirs.getD 0 0 && decide (mine.getD 1 0 ≥ theirs.getD 1 0)

/-- Decoded contents of a current-format PICO datafile: the dictionary
pickled by create_pico.  `pico` holds the bytes of the nested pickled
payload (opaque at the container layer); `version` is absent in files
written before the version field existed. -/
structure PicoData where
  code : String
  module_name : String
  pico : List Nat
  version : Option String
  deriving DecidableEq, Repr

/-- Decoded contents of a legacy (Python 2 era) PICO datafile, the input of
convert_picofile: a dictionary with bytes keys.  `module_name` and `pico`
are the fields the converter reads unconditionally; `version` may be
absent; the legacy `code` field is never read by the converter. -/
structure LegacyData where
  module_name : String
  version : Option String
  pico : List Nat
  code : Option String
  deriving DecidableEq, Repr

/-- Contents of one file on disk. -/
inductive FileContent where
  | container (d : PicoData)
  | legacy (d : LegacyData)
  | text (s : String)
  | empty
  deriving DecidableEq, Repr

/-- The file system: paths mapped to contents (later entries shadowed). -/
abbrev FS := List (String × FileContent)

def lookupFC (fs : FS) (p : String) : Option FileContent := List.lookup p fs

def insertFC (fs : FS) (p : String) (c : FileContent) : FS := (p, c) :: fs

/-- Wrap a string in single quotes, as the %s formats of the source do. -/
def quoteS (s : String) : String := "'" ++ s ++ "'"

/-- A raised Python exception: its type name, its str(), and its (Python 2
only) `message` attribute.  Python 3 exceptions carry no `message`
attribute, so in this Python 3 embedding the field is `none` and an access
raises AttributeError. -/
structure PyExn where
  typeName : String
  str : String
  message : Option String
  deriving DecidableEq, Repr

/-- A unit registered in sys.modules: built either by exec of embedded code
text (the plain path) or by imp.load_source on a file path (the override
path of load_pico). -/
inductive ModSource where
  | fromCode (code : String)
  | fromFile (path : String)
  deriving DecidableEq, Repr

/-- One code-execution side effect: exec of embedded code in a fresh module,
or imp.load_source of an override file. -/
inductive ExecEvent where
  | execCode (name code : String)
  | loadSource (name path : String)
  deriving DecidableEq, Repr

/-- Process-wide state: sys.modules, everything printed as a warning, and
the log of code executions (to state re-execution properties). -/
structure ProcState where
  modules : List (String × ModSource)
  warnings : List String
  execLog : List ExecEvent
  deriving DecidableEq, Repr

/-- sys.modules[name] = m (the new binding shadows any previous one). -/
def setMod (r : List (String × ModSource)) (name : String) (m : ModSource) :
    List (String × ModSource) := (name, m) :: r

/-- Model of open(datafile, "rb") followed by pickle.load(f) in load_pico:
a missing file fails to open, and only a current-format container
deserializes; anything else raises from pickle.load. -/
def openPicoFile (fs : FS) (datafile : String) : Except PyExn PicoData :=
  match lookupFC fs datafile with
  | none => .error ⟨"FileNotFoundError",
      "[Errno 2] No such file or directory: " ++ quoteS datafile, none⟩
  | some (.container d) => .ok d
  | some (.legacy _) => .error ⟨"UnicodeDecodeError",
      "ascii codec cannot decode byte 0x80", none⟩
  | some (.text _) => .error ⟨"UnpicklingError", "could not find MARK", none⟩
  | some .empty => .error ⟨"EOFError", "Ran out of input", none⟩

/-- Errors a load can raise. -/
inductive LoadError where
  | exn (msg : String)
  | attributeError (msg : String)
  | nameError (name : String)
  | raised (e : PyExn)
  deriving DecidableEq, Repr

/-- The except branch of load_pico around the open: the source builds
Exception with the format "Failed to open PICO datafile NAME newline CAUSE"
from datafile and e.message.  The attribute access e.message is evaluated
while the message is built, and on a Python 3 exception (message = none) it
itself raises AttributeError, so the Exception carrying the path and the
cause is never constructed. -/
def openFailError (datafile : String) (e : PyExn) : LoadError :=
  match e.message with
  | some m => .exn ("Failed to open PICO datafile " ++ quoteS datafile ++ "\n" ++ m)
  | none => .attributeError
      (quoteS e.typeName ++ " object has no attribute " ++ quoteS "message")

/-- Metadata attached to the returned object: the loaded dictionary after
data.pop removed the payload entry. -/
structure PicoMeta where
  code : String
  module_name : String
  version : Option String
  deriving DecidableEq, Repr

/-- The object load_pico returns: the deserialized payload (modelled by its
bytes) with the provenance dictionary attached as _pico_data. -/
structure PicoObj where
  payload : List Nat
  pico_data : PicoMeta
  deriving DecidableEq, Repr

def mkPicoObj (data : PicoData) : PicoObj :=
  ⟨data.pico, ⟨data.code, data.module_name, data.version⟩⟩

/-- Result of a call to load_pico. -/
inductive LoadResult where
  | ok (p : PicoObj)
  | err (e : LoadError)
  deriving DecidableEq, Repr

/-- The warning printed when the loaded dictionary has no version entry. -/
def warnNoVersion : String :=
  "Warning: PICO datafile does not have version. Can't check compatibility."

/-- Translation of pypico.load_pico.  `execRes code` is the outcome of
exec(code, mymod.__dict__) — none on success, some e when the embedded code
raises e; `fileRes path` likewise for imp.load_source on an override file.
Steps, in source order: open and unpickle the datafile (failure handled by
openFailError); materialize code — the override path always runs
imp.load_source and rebinds sys.modules under the container's module_name,
the plain path execs the embedded code only when module_name is not yet in
sys.modules (on exec failure sys.modules is untouched, since the binding
happens after the exec); then, when check_version is set, a missing version
entry prints a warning and the load continues, while an incompatible one
would raise — the raise itself references the undefined global _version,
so that branch would end in NameError. -/
def load_pico (fs : FS) (execRes : String → Option PyExn)
    (fileRes : String → Option PyExn) (st : ProcState) (datafile : String)
    (module : Option String) (check_version : Bool) : LoadResult × ProcState :=
  match openPicoFile fs datafile with
  | .error e => (.err (openFailError datafile e), st)
  | .ok data =>
    let mat : Except LoadError ProcState :=
      match module with
      | some path =>
        match fileRes path with
        | some e => .error (.raised e)
        | none => .ok { st with
            modules := setMod st.modules data.module_name (.fromFile path),
            execLog := st.execLog ++ [.loadSource data.module_name path] }
      | none =>
        match List.lookup data.module_name st.modules with
        | some _ => .ok st
        | none =>
          match execRes data.code with
          | some e => .error (.exn ("Error executing PICO code for datafile "
              ++ quoteS datafile ++ "\n" ++ e.str))
          | none => .ok { st with
              modules := setMod st.modules data.module_name (.fromCode data.code),
              execLog := st.execLog ++ [.execCode data.module_name data.code] }
    match mat with
    | .error e => (.err e, st)
    | .ok st1 =>
      if check_version then
        match data.version with
        | none =>
          (.ok (mkPicoObj data),
           { st1 with warnings := st1.warnings ++ [warnNoVersion] })
        | some v =>
          if _version_ok v then (.ok (mkPicoObj data), st1)
          else (.err (.nameError "_version"), st1)
      else (.ok (mkPicoObj data), st1)

/-! The container codec.  create_pico serializes the four-field dictionary
with pickle.dump and load_pico reads it back with pickle.load; pickle is
the standard library, so its byte format is modelled here by a concrete
length-prefixed encoding with the contract pickle guarantees for this
dictionary: an exact round trip of the four fields. -/

def encodeStr (s : String) : List Nat := s.data.length :: s.data.map Char.toNat

def encodeBytes (b : List Nat) : List Nat := b.length :: b

def encodeOptStr : Option String → List Nat
  | none => [0]
  | some s => 1 :: encodeStr s

/-- Model of pickle.dumps on the datafile dictionary written by create_pico
(fields in the order of the dict literal at the end of create_pico). -/
def pickleDumps (d : PicoData) : List Nat :=
  encodeStr d.code ++ encodeStr d.module_name ++ encodeBytes d.pico
    ++ encodeOptStr d.version

def decodeStr : List Nat → Option (String × List Nat)
  | [] => none
  | n :: rest => if n ≤ rest.length then
      some (⟨(rest.take n).map Char.ofNat⟩, rest.drop n) else none

def decodeBytes : List Nat → Option (List Nat × List Nat)
  | [] => none
  | n :: rest => if n ≤ rest.length then some (rest.take n, rest.drop n)
      else none

def decodeOptStr : List Nat → Option (Option String × List Nat)
  | 0 :: rest => some (none, rest)
  | 1 :: rest => (decodeStr rest).map (fun p => (some p.1, p.2))
  | _ => none

/-- Model of pickle.load reading back the datafile dictionary. -/
def pickleLoads (l : List Nat) : Option PicoData :=
  match decodeStr l with
  | none => none
  | some (code, l1) =>
    match decodeStr l1 with
    | none => none
    | some (mn, l2) =>
      match decodeBytes l2 with
      | none => none
      | some (pb, l3) =>
        match decodeOptStr l3 with
        | none => none
        | some (ver, l4) =>
          if l4 = [] then some ⟨code, mn, pb, ver⟩ else none

/-- The dictionary literal create_pico pickles: the fresh text of codefile,
the module name, the separately pickled payload, and the running library
version stamped as the version field. -/
def create_pico_dict (codetext : String) (name : String)
    (payloadBytes : List Nat) : PicoData :=
  { code := codetext, module_name := name, pico := payloadBytes,
    version := some pypicoVersion }

/-- Errors a call to create_pico can raise. -/
inductive CreateErr where
  | fromLoad (e : LoadError)
  | typeError (msg : String)
  | readErr (path : String)
  deriving DecidableEq, Repr

/-- Translation of pypico.create_pico under Python 3 semantics, returning
the file system, the process state and the raised error if any.
With existing_pico = none the source computes
hashlib.md5(os.path.abspath(codefile) + time.ctime()); md5 of a str raises
TypeError under Python 3, before anything is read or written.
With existing_pico = some path, the existing datafile is loaded through
load_pico (defaults: no override, check_version on) and its module_name
reused; then the statement
  with open(datafile, 'w') as f: pickle.dump(dict, f, protocol=2)
runs: the open in text mode truncates datafile on the spot, the dict
argument (including open(codefile).read()) is evaluated next, and the dump
then writes binary pickle data to the text-mode handle, which raises
TypeError under Python 3 before anything reaches the file — there is no
temporary file and no rename anywhere on this path. -/
def create_pico (fs : FS) (execRes : String → Option PyExn)
    (fileRes : String → Option PyExn) (st : ProcState)
    (codefile : String) (datafile : String) (existing_pico : Option String) :
    FS × ProcState × Option CreateErr :=
  match existing_pico with
  | none => (fs, st, some (.typeError "Unicode-objects must be encoded before hashing"))
  | some ep =>
    match load_pico fs execRes fileRes st ep none true with
    | (.err e, st1) => (fs, st1, some (.fromLoad e))
    | (.ok pico, st1) =>
      let fs1 := insertFC fs datafile .empty
      match lookupFC fs1 codefile with
      | some (.text codetext) =>
        (fs1, st1, some (.typeError "write() argument must be str, not bytes"))
      | some .empty =>
        (fs1, st1, some (.typeError "write() argument must be str, not bytes"))
      | _ => (fs1, st1, some (.readErr codefile))

/-- Index of the last occurrence of c in cs, -1 when absent: Python's
str.rfind on a single character. -/
def rfindChar (cs : List Char) (c : Char) : Int :=
  match ((List.range cs.length).filter
      (fun i => decide (cs.get? i = some c))).getLast? with
  | some i => (i : Int)
  | none => -1

/-- Model of os.path.splitext (posixpath): split at the last dot when it
lies after the last slash and some earlier character of the basename is not
a dot (so an all-dots leading run, as in a hidden file, is not an
extension); otherwise the extension is empty. -/
def splitext (p : String) : String × String :=
  if decide (rfindChar p.data '.' > rfindChar p.data '/') &&
      (List.range p.data.length).any (fun i =>
        decide (rfindChar p.data '/' < (i : Int)) &&
        decide ((i : Int) < rfindChar p.data '.') &&
        decide (p.data.get? i ≠ some '.')) then
    (⟨p.data.take (rfindChar p.data '.').toNat⟩,
     ⟨p.data.drop (rfindChar p.data '.').toNat⟩)
  else (p, "")

/-- Errors a call to convert_picofile can raise. -/
inductive ConvertErr where
  | openErr (path : String)
  | keyError (key : String)
  | readErr (path : String)
  deriving DecidableEq, Repr

/-- Translation of convert_picofile.convert_picofile.  In source order: open
and unpickle the legacy datafile (encoding="bytes"); read the text of
codefile into the new code field; decode the legacy module_name and version
fields — a legacy dictionary with no version entry raises KeyError here, so
nothing is written for it; copy the payload; dump the new dictionary to
splitext(datafile) root with "_py3.dat" appended. -/
def convert_picofile (fs : FS) (datafile : String) (codefile : String) :
    FS × Option ConvertErr :=
  match lookupFC fs datafile with
  | some (.legacy old) =>
    match lookupFC fs codefile with
    | some (.text codetext) =>
      match old.version with
      | none => (fs, some (.keyError "version"))
      | some v =>
        let nd : PicoData := { code := codetext, module_name := old.module_name,
                               pico := old.pico, version := some v }
        let newdatafile := (splitext datafile).1 ++ "_py3.dat"
        (insertFC fs newdatafile (.container nd), none)
    | _ => (fs, some (.readErr codefile))
  | _ => (fs, some (.openErr datafile))

/-- Substring test (used only to state what an error message omits). -/
def strContains (s pat : String) : Bool :=
  (List.range (s.data.length + 1)).any
    (fun i => (s.data.drop i).take pat.data.length == pat.data)

/-! Concrete data used by the example theorems below. -/

/-- Code text of a sample datafile. -/
def sampleCode : String := "def get_pico(): pass"

/-- Execution oracle under which no code raises. -/
def noExn : String → Option PyExn := fun _ => none

/-- Process state at interpreter start: no materialized datafile modules. -/
def emptyState : ProcState := ⟨[], [], []⟩

/-- A container recorded by a newer minor version than the running 3.3.0. -/
def newerMinorContainer : PicoData :=
  { code := sampleCode, module_name := "pypico.datafiles.a1", pico := [3, 1, 4],
    version := some "3.4.0" }

/-- A container recorded by a different major version than the running 3.3.0. -/
def majorMismatchContainer : PicoData :=
  { code := sampleCode, module_name := "pypico.datafiles.b2", pico := [2, 7],
    version := some "2.0.0" }

def fsVersions : FS :=
  [("a.dat", .container newerMinorContainer),
   ("b.dat", .container majorMismatchContainer)]

/-- A container whose embedded code raises when executed. -/
def badCodeContainer : PicoData :=
  { code := "raise ValueError()", module_name := "pypico.datafiles.e5",
    pico := [5], version := some "3.3.0" }

def fsBadCode : FS := [("bad.dat", .container badCodeContainer)]

/-- Oracle under which exactly the bad code text raises. -/
def failBadCode : String → Option PyExn :=
  fun c => if c = "raise ValueError()" then some ⟨"ValueError", "boom", none⟩ else none

/-- A well-formed container with no version entry. -/
def noVersionContainer : PicoData :=
  { code := sampleCode, module_name := "pypico.datafiles.d4", pico := [9, 9],
    version := none }

def fsNoVersion : FS := [("old.dat", .container noVersionContainer)]

/-- A pre-existing container about to be overwritten by create_pico. -/
def oldContainer : PicoData :=
  { code := sampleCode, module_name := "pypico.datafiles.c3", pico := [7, 7],
    version := some "3.3.0" }

def fsCreate : FS :=
  [("model.dat", .container oldContainer), ("code.py", .text "new code")]

/-- A legacy datafile with no version entry. -/
def legacyNoVersion : LegacyData :=
  { module_name := "oldmod", version := none, pico := [1, 2],
    code := some "legacy code" }

/-- The same legacy datafile with its version entry present. -/
def legacyWithVersion : LegacyData :=
  { module_name := "oldmod", version := some "3.1.0", pico := [1, 2],
    code := some "legacy code" }

def fsLegacyA : FS :=
  [("model.dat", .legacy legacyNoVersion), ("code.py", .text "cc")]

def fsLegacyB : FS :=
  [("model.dat", .legacy legacyWithVersion), ("code.py", .text "cc")]

/-- Process state after a first plain load of a.dat from emptyState. -/
def stAfterA : ProcState :=
  ⟨[("pypico.datafiles.a1", .fromCode sampleCode)], [],
   [.execCode "pypico.datafiles.a1" sampleCode]⟩

/-- Process state after an override load registered a module from debug.py. -/
def stOverride : ProcState :=
  ⟨[("pypico.datafiles.a1", .fromFile "debug.py")], [],
   [.loadSource "pypico.datafiles.a1" "debug.py"]⟩

/-- Process state after create_pico loaded the existing model.dat container. -/
def stAfterCreateLoad : ProcState :=
  ⟨[("pypico.datafiles.c3", .fromCode sampleCode)], [],
   [.execCode "pypico.datafiles.c3" sampleCode]⟩

/-! Helper lemmas shared by the claim theorems. -/

/-- Because _version_ok compares __version__ with itself, it holds for every
argument, whatever the datafile recorded. -/
theorem _version_ok_eq_true (v : String) : _version_ok v = true := rfl

theorem String_mk_data (s : String) : String.mk s.data = s := rfl

theorem String_data_append (a b : String) : (a ++ b).data = a.data ++ b.data := rfl

theorem map_ofNat_toNat (l : List Char) :
    (l.map Char.toNat).map Char.ofNat = l := by
  induction l with
  | nil => rfl
  | cons c t ih => simp [ih, Char.ofNat_toNat]

theorem decodeStr_encodeStr (s : String) (rest : List Nat) :
    decodeStr (encodeStr s ++ rest) = some (s, rest) := by
  simp only [encodeStr, List.cons_append, decodeStr]
  rw [if_pos (by simp)]
  rw [List.take_left' (by simp), List.drop_left' (by simp)]
  rw [map_ofNat_toNat, String_mk_data]

theorem decodeBytes_encodeBytes (b : List Nat) (rest : List Nat) :
    decodeBytes (encodeBytes b ++ rest) = some (b, rest) := by
  simp only [encodeBytes, List.cons_append, decodeBytes]
  rw [if_pos (by simp)]
  rw [List.take_left, List.drop_left]

theorem decodeOptStr_encodeOptStr (o : Option String) (rest : List Nat) :
    decodeOptStr (encodeOptStr o ++ rest) = some (o, rest) := by
  cases o with
  | none => rfl
  | some s =>
    simp [encodeOptStr, decodeOptStr, decodeStr_encodeStr]

theorem pickleLoads_pickleDumps (d : PicoData) :
    pickleLoads (pickleDumps d) = some d := by
  obtain ⟨c, mn, pb, ver⟩ := d
  have h4 := decodeOptStr_encodeOptStr ver []
  rw [List.append_nil] at h4
  simp only [pickleDumps, List.append_assoc, pickleLoads,
    decodeStr_encodeStr, decodeBytes_encodeBytes, h4, if_true]

theorem rfindChar_neg_one_le (cs : List Char) (c : Char) : -1 ≤ rfindChar cs c := by
  unfold rfindChar
  cases hE : ((List.range cs.length).filter
      fun i => decide (cs.get? i = some c)).getLast? with
  | none => show (-1 : Int) ≤ -1; omega
  | some i =>
    show (-1 : Int) ≤ (i : Int)
    omega

theorem rfindChar_get (cs : List Char) (c : Char) (h : 0 ≤ rfindChar cs c) :
    cs.get? (rfindChar cs c).toNat = some c := by
  unfold rfindChar at h ⊢
  cases hE : ((List.range cs.length).filter
      fun i => decide (cs.get? i = some c)).getLast? with
  | none =>
    rw [hE] at h
    have hbad : (0 : Int) ≤ -1 := h
    norm_num at hbad
  | some i =>
    have hmem := List.mem_of_mem_getLast? (Option.mem_def.mpr hE)
    have hfil := (List.mem_filter.mp hmem).2
    simp only [decide_eq_true_eq] at hfil
    show cs.get? ((i : Int)).toNat = some c
    simpa using hfil

/-- The converter's output path never equals its input path: splitext yields
either an empty extension or one starting with a dot, while the appended
marker starts with an underscore. -/
theorem splitext_ne_append (p : String) : (splitext p).1 ++ "_py3.dat" ≠ p := by
  unfold splitext
  split
  case isTrue h =>
    rw [Bool.and_eq_true] at h
    have hgt : rfindChar p.data '/' < rfindChar p.data '.' := of_decide_eq_true h.1
    have hsep := rfindChar_neg_one_le p.data '/'
    have hd0 : 0 ≤ rfindChar p.data '.' := by omega
    have hget := rfindChar_get p.data '.' hd0
    intro heq
    have hdata := congrArg String.data heq
    rw [String_data_append] at hdata
    have hdata2 : p.data.take (rfindChar p.data '.').toNat
        ++ ("_py3.dat" : String).data = p.data := hdata
    conv at hdata2 =>
      rhs
      rw [← List.take_append_drop (rfindChar p.data '.').toNat p.data]
    have htail := List.append_cancel_left hdata2
    have h0 := congrArg (fun l => l.get? 0) htail
    simp only [List.get?_drop] at h0
    rw [Nat.add_zero] at h0
    rw [hget] at h0
    exact absurd (Option.some.inj h0) (by decide)
  case isFalse h =>
    intro heq
    have hlen := congrArg (fun s => s.data.length) heq
    simp only [String_data_append, List.length_append] at hlen
    have h8 : ("_py3.dat" : String).data.length = 8 := rfl
    rw [h8] at hlen
    have hlen2 : p.data.length + 8 = p.data.length := hlen
    omega

/-! Claim theorems. -/

/-- C1 (code_bug evidence): the claimed version gate is not enforced.
Because _version_ok compares the running version with itself, a datafile
stamped 3.4.0 (same major, newer minor than the running 3.3.0) and one
stamped 2.0.0 (major mismatch) both pass the check, and load_pico with
check_version = true returns the model instance where the claim requires a
VersionIncompatibleError. -/
theorem version_gate_not_enforced :
    _version_ok "3.4.0" = true ∧ _version_ok "2.0.0" = true ∧
    (load_pico fsVersions noExn noExn emptyState "a.dat" none true).1 =
      .ok (mkPicoObj newerMinorContainer) ∧
    (load_pico fsVersions noExn noExn emptyState "b.dat" none true).1 =
      .ok (mkPicoObj majorMismatchContainer) :=
  ⟨rfl, rfl, rfl, rfl⟩

/-- C2: container round trip: decoding the encoded four-field container
dictionary returns exactly the code text, logical name, payload bytes and
version that were encoded, for arbitrary field values. -/
theorem container_roundtrip (code name : String) (payload : List Nat)
    (version : String) :
    pickleLoads (pickleDumps
      { code := code, module_name := name, pico := payload,
        version := some version }) =
      some { code := code, module_name := name, pico := payload,
             version := some version } :=
  pickleLoads_pickleDumps _

/-- C3: when the container's module_name is already present in sys.modules,
a plain load returns the model instance, leaves the registry exactly as it
was (no new entry), executes no code, and the name stays bound to the same
registered unit. -/
theorem load_pico_idempotent (fs : FS) (execRes fileRes : String → Option PyExn)
    (st : ProcState) (datafile : String) (data : PicoData) (m : ModSource)
    (cv : Bool)
    (h1 : openPicoFile fs datafile = .ok data)
    (h2 : List.lookup data.module_name st.modules = some m) :
    (load_pico fs execRes fileRes st datafile none cv).1 = .ok (mkPicoObj data) ∧
    (load_pico fs execRes fileRes st datafile none cv).2.modules = st.modules ∧
    (load_pico fs execRes fileRes st datafile none cv).2.execLog = st.execLog ∧
    List.lookup data.module_name
      (load_pico fs execRes fileRes st datafile none cv).2.modules = some m := by
  cases cv <;> cases hdv : data.version <;>
    simp [load_pico, h1, h2, hdv, _version_ok_eq_true]

/-- Witness for load_pico_idempotent: a second plain load of a.dat after the
first one registered its module. -/
theorem load_pico_idempotent_witness :
    openPicoFile fsVersions "a.dat" = .ok newerMinorContainer ∧
    List.lookup newerMinorContainer.module_name stAfterA.modules =
      some (.fromCode sampleCode) ∧
    ((load_pico fsVersions noExn noExn stAfterA "a.dat" none true).1 =
        .ok (mkPicoObj newerMinorContainer) ∧
      (load_pico fsVersions noExn noExn stAfterA "a.dat" none true).2.modules =
        stAfterA.modules ∧
      (load_pico fsVersions noExn noExn stAfterA "a.dat" none true).2.execLog =
        stAfterA.execLog ∧
      List.lookup newerMinorContainer.module_name
        (load_pico fsVersions noExn noExn stAfterA "a.dat" none true).2.modules =
        some (.fromCode sampleCode)) :=
  ⟨rfl, rfl, load_pico_idempotent fsVersions noExn noExn stAfterA "a.dat"
    newerMinorContainer (.fromCode sampleCode) true rfl rfl⟩

/-- C5 (code_bug evidence): on an unopenable path the underlying exception
carries the path in its text, but the handler's access to the nonexistent
message attribute raises AttributeError, so the error load_pico actually
fails with names neither the datafile path nor the underlying cause. -/
theorem open_error_loses_context :
    openPicoFile [] "mydata.pkl" = .error ⟨"FileNotFoundError",
      "[Errno 2] No such file or directory: 'mydata.pkl'", none⟩ ∧
    strContains "[Errno 2] No such file or directory: 'mydata.pkl'"
      "mydata.pkl" = true ∧
    (load_pico [] noExn noExn emptyState "mydata.pkl" none true).1 =
      .err (.attributeError
        "'FileNotFoundError' object has no attribute 'message'") ∧
    strContains "'FileNotFoundError' object has no attribute 'message'"
      "mydata.pkl" = false ∧
    strContains "'FileNotFoundError' object has no attribute 'message'"
      "No such file" = false :=
  ⟨rfl, rfl, rfl, rfl, rfl⟩

/-- C6: when the embedded code raises during exec, the load fails with an
Exception whose message carries the datafile path and str of the underlying
error, and the whole process state — sys.modules in particular — is exactly
what it was before the attempt. -/
theorem exec_failure_keeps_state (fs : FS)
    (execRes fileRes : String → Option PyExn) (st : ProcState)
    (datafile : String) (data : PicoData) (e : PyExn) (cv : Bool)
    (h1 : openPicoFile fs datafile = .ok data)
    (h2 : List.lookup data.module_name st.modules = none)
    (h3 : execRes data.code = some e) :
    load_pico fs execRes fileRes st datafile none cv =
      (.err (.exn ("Error executing PICO code for datafile "
        ++ quoteS datafile ++ "\n" ++ e.str)), st) := by
  simp [load_pico, h1, h2, h3]

/-- Witness for exec_failure_keeps_state: bad.dat raising ValueError. -/
theorem exec_failure_keeps_state_witness :
    openPicoFile fsBadCode "bad.dat" = .ok badCodeContainer ∧
    List.lookup badCodeContainer.module_name emptyState.modules = none ∧
    failBadCode badCodeContainer.code = some ⟨"ValueError", "boom", none⟩ ∧
    load_pico fsBadCode failBadCode noExn emptyState "bad.dat" none true =
      (.err (.exn ("Error executing PICO code for datafile "
        ++ quoteS "bad.dat" ++ "\n" ++ "boom")), emptyState) :=
  ⟨rfl, rfl, rfl, exec_failure_keeps_state fsBadCode failBadCode noExn
    emptyState "bad.dat" badCodeContainer ⟨"ValueError", "boom", none⟩ true
    rfl rfl rfl⟩

/-- C7: a well-formed container with no version entry loads with
check_version = true: the load does not raise, the model instance is
deserialized from the payload and returned, and exactly the no-version
warning is printed. -/
theorem missing_version_warns (fs : FS)
    (execRes fileRes : String → Option PyExn) (st : ProcState)
    (datafile : String) (data : PicoData)
    (h1 : openPicoFile fs datafile = .ok data)
    (h2 : data.version = none)
    (h3 : List.lookup data.module_name st.modules = none →
      execRes data.code = none) :
    (load_pico fs execRes fileRes st datafile none true).1 =
      .ok (mkPicoObj data) ∧
    (load_pico fs execRes fileRes st datafile none true).2.warnings =
      st.warnings ++ [warnNoVersion] := by
  cases hl : List.lookup data.module_name st.modules with
  | some m => simp [load_pico, h1, h2, hl]
  | none => simp [load_pico, h1, h2, hl, h3 hl]

/-- Witness for missing_version_warns: old.dat with no version field. -/
theorem missing_version_warns_witness :
    openPicoFile fsNoVersion "old.dat" = .ok noVersionContainer ∧
    noVersionContainer.version = none ∧
    ((load_pico fsNoVersion noExn noExn emptyState "old.dat" none true).1 =
        .ok (mkPicoObj noVersionContainer) ∧
      (load_pico fsNoVersion noExn noExn emptyState "old.dat" none true).2.warnings =
        emptyState.warnings ++ [warnNoVersion]) :=
  ⟨rfl, rfl, missing_version_warns fsNoVersion noExn noExn emptyState
    "old.dat" noVersionContainer rfl rfl (fun _ => rfl)⟩

/-- C8: a load with an override code path executes the file at that path
via imp.load_source and rebinds the container's module_name to the unit
built from that file — also when a registration under that name already
exists (the st quantified here may hold any prior entry, which the new
binding shadows) — and the container's embedded code is not executed (the
execution log grows by exactly the load_source event). -/
theorem override_precedence (fs : FS)
    (execRes fileRes : String → Option PyExn) (st : ProcState)
    (datafile : String) (data : PicoData) (path : String) (cv : Bool)
    (h1 : openPicoFile fs datafile = .ok data)
    (h2 : fileRes path = none) :
    List.lookup data.module_name
        (load_pico fs execRes fileRes st datafile (some path) cv).2.modules =
      some (.fromFile path) ∧
    (load_pico fs execRes fileRes st datafile (some path) cv).2.execLog =
      st.execLog ++ [.loadSource data.module_name path] := by
  cases cv <;> cases hdv : data.version <;>
    simp [load_pico, h1, h2, hdv, _version_ok_eq_true, setMod, List.lookup]

/-- Witness for override_precedence: an override load of a.dat over a state
that already holds a plain registration for the same name. -/
theorem override_precedence_witness :
    openPicoFile fsVersions "a.dat" = .ok newerMinorContainer ∧
    noExn "debug.py" = none ∧
    List.lookup newerMinorContainer.module_name stAfterA.modules =
      some (.fromCode sampleCode) ∧
    (List.lookup newerMinorContainer.module_name
        (load_pico fsVersions noExn noExn stAfterA "a.dat"
          (some "debug.py") true).2.modules = some (.fromFile "debug.py") ∧
      (load_pico fsVersions noExn noExn stAfterA "a.dat"
          (some "debug.py") true).2.execLog =
        stAfterA.execLog ++
          [.loadSource newerMinorContainer.module_name "debug.py"]) :=
  ⟨rfl, rfl, rfl, override_precedence fsVersions noExn noExn stAfterA
    "a.dat" newerMinorContainer "debug.py" true rfl rfl⟩

/-- C10: once the registry binds a logical name to a unit built from an
override file, any subsequent plain load of any container with that
module_name leaves the registry and the execution log unchanged, so the
override registration keeps serving and the container's embedded code is
never executed. -/
theorem override_registration_persists (fs : FS)
    (execRes fileRes : String → Option PyExn) (st : ProcState)
    (datafile : String) (data : PicoData) (nm path : String) (cv : Bool)
    (h0 : List.lookup nm st.modules = some (.fromFile path))
    (h1 : openPicoFile fs datafile = .ok data)
    (h2 : data.module_name = nm) :
    (load_pico fs execRes fileRes st datafile none cv).2.modules =
      st.modules ∧
    (load_pico fs execRes fileRes st datafile none cv).2.execLog =
      st.execLog ∧
    List.lookup nm
      (load_pico fs execRes fileRes st datafile none cv).2.modules =
      some (.fromFile path) := by
  cases cv <;> cases hdv : data.version <;>
    simp [load_pico, h1, h2, h0, hdv, _version_ok_eq_true]

/-- Witness for override_registration_persists: a plain load of a.dat after
an override registration for its name. -/
theorem override_registration_persists_witness :
    List.lookup "pypico.datafiles.a1" stOverride.modules =
      some (.fromFile "debug.py") ∧
    openPicoFile fsVersions "a.dat" = .ok newerMinorContainer ∧
    newerMinorContainer.module_name = "pypico.datafiles.a1" ∧
    ((load_pico fsVersions noExn noExn stOverride "a.dat" none true).2.modules =
        stOverride.modules ∧
      (load_pico fsVersions noExn noExn stOverride "a.dat" none true).2.execLog =
        stOverride.execLog ∧
      List.lookup "pypico.datafiles.a1"
        (load_pico fsVersions noExn noExn stOverride "a.dat" none true).2.modules =
        some (.fromFile "debug.py")) :=
  ⟨rfl, rfl, rfl, override_registration_persists fsVersions noExn noExn
    stOverride "a.dat" newerMinorContainer "pypico.datafiles.a1" "debug.py"
    true rfl rfl rfl⟩

/-- C4 counterexample: create_pico over a path holding a container leaves
that path truncated — neither the previous container untouched nor a
complete new container present — and the create itself fails: the write is
in-place truncation, not write-to-temp-then-rename. -/
theorem create_pico_clobbers_existing :
    lookupFC fsCreate "model.dat" = some (.container oldContainer) ∧
    lookupFC (create_pico fsCreate noExn noExn emptyState "code.py"
        "model.dat" (some "model.dat")).1 "model.dat" = some .empty ∧
    (create_pico fsCreate noExn noExn emptyState "code.py" "model.dat"
        (some "model.dat")).2.2 =
      some (.typeError "write() argument must be str, not bytes") :=
  ⟨rfl, rfl, rfl⟩

/-- C4 amended: create_pico writes by opening output_path in truncating
text mode and dumping the pickle directly — no temporary file, no rename —
so once the reused container has loaded, the file system changes exactly by
output_path becoming empty (truncated), every other path keeps its previous
contents, and the binary dump into the text-mode handle then fails under
Python 3, so the previous container at output_path is destroyed and no new
container is written. -/
theorem create_pico_truncates_in_place (fs : FS)
    (execRes fileRes : String → Option PyExn) (st : ProcState)
    (codefile datafile ep : String) (pico : PicoObj) (st1 : ProcState)
    (h1 : load_pico fs execRes fileRes st ep none true = (.ok pico, st1))
    (h2 : codefile ≠ datafile) :
    (create_pico fs execRes fileRes st codefile datafile (some ep)).1 =
      insertFC fs datafile .empty ∧
    lookupFC (create_pico fs execRes fileRes st codefile datafile
      (some ep)).1 datafile = some .empty ∧
    (∀ q, q ≠ datafile →
      lookupFC (create_pico fs execRes fileRes st codefile datafile
        (some ep)).1 q = lookupFC fs q) ∧
    (create_pico fs execRes fileRes st codefile datafile (some ep)).2.2 ≠
      none := by
  have hfs1 : (create_pico fs execRes fileRes st codefile datafile
      (some ep)).1 = insertFC fs datafile .empty := by
    simp only [create_pico, h1]
    split <;> rfl
  refine ⟨hfs1, ?_, ?_, ?_⟩
  · rw [hfs1]
    simp [insertFC, lookupFC, List.lookup]
  · intro q hq
    rw [hfs1]
    have hb : (q == datafile) = false := beq_false_of_ne hq
    simp [insertFC, lookupFC, List.lookup, hb]
  · simp only [create_pico, h1]
    split <;> simp

/-- Witness for create_pico_truncates_in_place: overwriting model.dat while
reusing the container stored there. -/
theorem create_pico_truncates_in_place_witness :
    load_pico fsCreate noExn noExn emptyState "model.dat" none true =
      (.ok (mkPicoObj oldContainer), stAfterCreateLoad) ∧
    "code.py" ≠ "model.dat" ∧
    ((create_pico fsCreate noExn noExn emptyState "code.py" "model.dat"
        (some "model.dat")).1 = insertFC fsCreate "model.dat" .empty ∧
      lookupFC (create_pico fsCreate noExn noExn emptyState "code.py"
        "model.dat" (some "model.dat")).1 "model.dat" = some .empty ∧
      lookupFC (create_pico fsCreate noExn noExn emptyState "code.py"
        "model.dat" (some "model.dat")).1 "code.py" =
        lookupFC fsCreate "code.py" ∧
      (create_pico fsCreate noExn noExn emptyState "code.py" "model.dat"
        (some "model.dat")).2.2 ≠ none) :=
  ⟨rfl, by decide, by
    obtain ⟨a, b, c, d⟩ := create_pico_truncates_in_place fsCreate noExn
      noExn emptyState "code.py" "model.dat" "model.dat"
      (mkPicoObj oldContainer) stAfterCreateLoad rfl (by decide)
    exact ⟨a, b, c "code.py" (by decide), d⟩⟩

/-- C9 counterexample: a legacy container with no version field makes
convert_picofile raise KeyError and write nothing, and even with a version
present the output goes to model_py3.dat (extension replaced by the marker
suffix), not to the claimed model_converted.dat. -/
theorem convert_picofile_claim_false :
    convert_picofile fsLegacyA "model.dat" "code.py" =
      (fsLegacyA, some (.keyError "version")) ∧
    lookupFC (convert_picofile fsLegacyB "model.dat" "code.py").1
      "model_converted.dat" = none ∧
    lookupFC (convert_picofile fsLegacyB "model.dat" "code.py").1
      "model_py3.dat" =
      some (.container { code := "cc", module_name := "oldmod",
                         pico := [1, 2], version := some "3.1.0" }) :=
  ⟨rfl, rfl, rfl⟩

/-- C9 amended: for a legacy container that holds code, module_name,
payload AND a version field, convert_picofile writes a new container with
all four fields (version populated from the legacy field, code read from
the supplied codefile) to the path obtained from the input by replacing its
extension with the marker suffix _py3.dat, and leaves the original file
unchanged; when the version field is missing it raises KeyError and writes
nothing (shown in the counterexample). -/
theorem convert_picofile_migrates (fs : FS) (datafile codefile : String)
    (old : LegacyData) (v codetext : String)
    (h1 : lookupFC fs datafile = some (.legacy old))
    (h2 : lookupFC fs codefile = some (.text codetext))
    (h3 : old.version = some v) :
    convert_picofile fs datafile codefile =
      (insertFC fs ((splitext datafile).1 ++ "_py3.dat")
        (.container { code := codetext, module_name := old.module_name,
                      pico := old.pico, version := some v }), none) ∧
    lookupFC (convert_picofile fs datafile codefile).1 datafile =
      some (.legacy old) := by
  have heq : convert_picofile fs datafile codefile =
      (insertFC fs ((splitext datafile).1 ++ "_py3.dat")
        (.container { code := codetext, module_name := old.module_name,
                      pico := old.pico, version := some v }), none) := by
    simp [convert_picofile, h1, h2, h3]
  refine ⟨heq, ?_⟩
  rw [heq]
  have hb : (datafile == (splitext datafile).1 ++ "_py3.dat") = false :=
    beq_false_of_ne (fun h => splitext_ne_append datafile h.symm)
  simpa [insertFC, lookupFC, List.lookup, hb] using h1

/-- Witness for convert_picofile_migrates: converting a legacy model.dat
that carries its version field. -/
theorem convert_picofile_migrates_witness :
    lookupFC fsLegacyB "model.dat" = some (.legacy legacyWithVersion) ∧
    lookupFC fsLegacyB "code.py" = some (.text "cc") ∧
    legacyWithVersion.version = some "3.1.0" ∧
    (convert_picofile fsLegacyB "model.dat" "code.py" =
      (insertFC fsLegacyB ((splitext "model.dat").1 ++ "_py3.dat")
        (.container { code := "cc", module_name := legacyWithVersion.module_name,
                      pico := legacyWithVersion.pico, version := some "3.1.0" }),
        none) ∧
      lookupFC (convert_picofile fsLegacyB "model.dat" "code.py").1
        "model.dat" = some (.legacy legacyWithVersion)) :=
  ⟨rfl, rfl, rfl, convert_picofile_migrates fsLegacyB "model.dat" "code.py"
    legacyWithVersion "3.1.0" "cc" rfl rfl rfl⟩
